import Mathlib

/-!
Verification development for the aish-cli command generation/execution engine
(`src/commands/command.ts`).  The TypeScript `CommandExecutor` class is embedded
shallowly: the mutable `CommandContext` becomes an explicit state record, each
`handle*` method becomes a pure state-transition function, and the asynchronous
external interactions (oracle calls, user prompts, subprocess outcomes) become
event payloads consumed one per loop iteration.  Console output is modelled as
an explicit output list so that reporting claims can be stated.
-/

deriving instance DecidableEq for Except

namespace Aish

/-- Result of `CommandAnalysisSchema` (command.ts lines 22-42). -/
structure CommandAnalysis where
  command : String
  explanation : String
  isDangerous : Bool
  requiresExternalPackages : Bool
  externalPackages : List String
  needsInteractiveMode : Bool
deriving DecidableEq

/-- Result of `FailureAnalysisSchema` (command.ts lines 47-65).
`alternativeCommand` is nullable in the schema. -/
structure FailureAnalysis where
  explanation : String
  solution : String
  alternativeCommand : Option String
  needsInteractiveMode : Bool
deriving DecidableEq

/-- `enum CommandState` (command.ts lines 73-80). -/
inductive CommandState where
  | analyzing
  | confirming
  | executing
  | failed
  | success
  | aborted
deriving DecidableEq

/-- The string value carried by each `CommandState` enum member. -/
def CommandState.tag : CommandState → String
  | .analyzing => "analyzing"
  | .confirming => "confirming"
  | .executing => "executing"
  | .failed => "failed"
  | .success => "success"
  | .aborted => "aborted"

/-- Shape of `context.lastError` (command.ts lines 100-105). -/
structure LastError where
  command : String
  exitCode : Int
  stdout : String
  stderr : String
deriving DecidableEq

/-- One entry of `context.failures` (command.ts lines 111-119); the optional
fields are `undefined` when absent. -/
structure FailureRecord where
  command : String
  exitCode : Int
  stdout : String
  stderr : String
  explanation : Option String
  solution : Option String
  alternativeCommand : Option String
deriving DecidableEq

/-- A conversation-history message (role-tagged, as in `ModelMessage`). -/
structure Msg where
  role : String
  content : String
deriving DecidableEq

/-- `interface CommandContext` (command.ts lines 94-123).  The optional
`isSudoRetry`/`sudoAttempts` fields start undefined in TypeScript and are only
ever read through `|| 0` / truthiness, so they are embedded with their default
values `false` / `0`. -/
structure CommandContext where
  state : CommandState
  query : String
  originalQuery : String
  conversationHistory : List Msg
  currentAnalysis : Option CommandAnalysis
  lastError : Option LastError
  isSudoRetry : Bool
  sudoAttempts : Nat
  attemptCount : Nat
  maxTries : Nat
  failures : List FailureRecord
  autoApprove : Bool
  jsonMode : Bool
  abortedReason : Option String
deriving DecidableEq

/-- The `CommandExecutor` constructor fields (command.ts lines 129-153).
`timeoutMs` is `undefined` when no `--timeout` flag was given. -/
structure Config where
  timeoutMs : Option Nat
  verbose : Bool
  forceTTY : Bool
  autoApprove : Bool
  maxTries : Nat
  jsonMode : Bool
deriving DecidableEq

/-- JavaScript truthiness of a `string | undefined | null` value: `undefined`,
`null` and the empty string are falsy. -/
def jsTruthy : Option String → Bool
  | none => false
  | some s => !(s == "")

/-- Normalize a JavaScript `string | null | undefined` to its truthy content:
`x` if truthy, otherwise `none` (models `x || undefined`). -/
def jsStr (o : Option String) : Option String :=
  if jsTruthy o then o else none

/-- JavaScript `x = x || "d"` / `x ||= "d"` on a `string | undefined` field. -/
def jsOrElse (o : Option String) (d : String) : Option String :=
  if jsTruthy o then o else some d

/-- JavaScript `String.prototype.includes`. -/
def strIncludes (s pat : String) : Bool :=
  s.toList.tails.any (fun t => pat.toList.isPrefixOf t)

/-- JavaScript `String.prototype.trim`, modelled structurally over the
character list (whitespace stripped from both ends) so that it evaluates by
kernel reduction. -/
def strTrim (s : String) : String :=
  ⟨((s.data.dropWhile Char.isWhitespace).reverse.dropWhile Char.isWhitespace).reverse⟩

/-- JavaScript `String.prototype.toLowerCase`, modelled as the character-wise
lowercase map. -/
def strToLower (s : String) : String :=
  ⟨s.data.map Char.toLower⟩

/-- `enum UserAction` together with the optional `input` payload of
`promptUser`'s return value (command.ts lines 85-89, 902-925). -/
inductive UserActionResult where
  | approve
  | reject
  | modify (input : String)
deriving DecidableEq

/-- `promptUser` (command.ts lines 902-925): classify the raw response typed at
the `[y/N/modify]` prompt. -/
def promptUser (response : String) : UserActionResult :=
  let trimmed := strToLower (strTrim response)
  if trimmed = "y" ∨ trimmed = "yes" then .approve
  else if trimmed = "n" ∨ trimmed = "no" ∨ trimmed = "" then .reject
  else if trimmed.length > 1 then .modify (strTrim response)
  else .reject

/-- Modelled from the spec, section 4.3 (Confirmation Gate), for comparison with
`promptUser`: the gate maps input after trimming and lowercasing — empty input
or `n`/`no` rejects, `y`/`yes` approves, any other input longer than one
character is a modification request carrying that (trimmed) text, and any other
single character rejects. -/
def specGateDecision (response : String) : UserActionResult :=
  let t := strToLower (strTrim response)
  if t = "" ∨ t = "n" ∨ t = "no" then .reject
  else if t = "y" ∨ t = "yes" then .approve
  else if t.length > 1 then .modify (strTrim response)
  else .reject

/-- The ways the race inside `executeCommand` (command.ts lines 758-896) can
resolve: the child's `close` event (with the accumulated captured output), a
spawn `error` event, the timeout timer firing first, or the SIGINT handler
firing first.  Exactly one of these resolves the promise. -/
inductive ProcOutcome where
  | closed (code : Option Int) (stdout stderr : String)
  | spawnError (message : String) (stdout : String)
  | timerFired (stdout stderr : String)
  | interrupted (stdout stderr : String)
deriving DecidableEq

/-- JavaScript truthiness of `this.timeoutMs` (command.ts line 781): the timer
is armed only when a non-zero timeout is configured. -/
def timeoutConfigured : Option Nat → Bool
  | some t => !(t == 0)
  | none => false

/-- `code || 0` on the nullable exit code of the `close` event
(command.ts line 863): a `null` code (signal termination) and a `0` code both
yield `0`. -/
def jsExitCode : Option Int → Int
  | none => 0
  | some c => if c = 0 then 0 else c

/-- The timer can only fire when it was armed; other resolutions are always
possible.  Used to restrict session traces to outcomes the executor can
actually produce. -/
def outcomePossible (timeoutMs : Option Nat) : ProcOutcome → Bool
  | .timerFired _ _ => timeoutConfigured timeoutMs
  | _ => true

/-- `{exitCode, stdout, stderr}` produced once per subprocess run. -/
structure ExecutionResult where
  exitCode : Int
  stdout : String
  stderr : String
deriving DecidableEq

/-- Result shaping of `executeCommand` (command.ts lines 758-896) for each way
the race resolves.  On `close` in interactive mode the captured streams are
replaced by the fixed marker / empty string (lines 862-866).  On timer expiry
the result is exit code 124 with the elapsed timeout appended to stderr
(lines 782-794); the CLI always passes whole-second timeouts
(`timeoutSeconds * 1000`), so `t / 1000` in ℕ matches the JavaScript division.
On spawn error the result is exit code 1 with the error text as stderr
(lines 870-879); on interrupt, 130 with an interruption note (lines 883-895). -/
def executeCommandResult (timeoutMs : Option Nat) (forceTTY needsInteractiveMode : Bool)
    (outcome : ProcOutcome) : ExecutionResult :=
  let useInteractive := forceTTY || needsInteractiveMode
  match outcome with
  | .timerFired so se =>
      { exitCode := 124
        stdout := so
        stderr := se ++ "\nCommand timed out after " ++ toString (timeoutMs.getD 0 / 1000)
          ++ " seconds" }
  | .closed code so se =>
      { exitCode := jsExitCode code
        stdout := if useInteractive then "Interactive command completed" else so
        stderr := if useInteractive then "" else se }
  | .spawnError msg so =>
      { exitCode := 1, stdout := so, stderr := msg }
  | .interrupted so se =>
      { exitCode := 130, stdout := so, stderr := se ++ "\nCommand interrupted by user" }

/-- `analyzeCommand` (command.ts lines 498-570) as a function of the structured
oracle response: a rejected oracle call propagates, and a response whose `data`
is null throws `"Failed to analyze command"` — there is no plain-text fallback
for command analysis. -/
def analyzeCommand (structured : Except String (Option CommandAnalysis)) :
    Except String CommandAnalysis :=
  match structured with
  | .error e => .error e
  | .ok none => .error "Failed to analyze command"
  | .ok (some a) => .ok a

/-- `analyzeFailure` (command.ts lines 575-665) as a function of the structured
oracle response and the plain-text fallback response: when the structured call
yields no validated `data`, a `FailureAnalysis` is synthesized from the
plain-text generation with `alternativeCommand = null` and
`needsInteractiveMode = false`. -/
def analyzeFailure (structured : Except String (Option FailureAnalysis))
    (plainText : Except String String) : Except String FailureAnalysis :=
  match structured with
  | .error e => .error e
  | .ok (some fa) => .ok fa
  | .ok none =>
    match plainText with
    | .error e => .error e
    | .ok t =>
      .ok { explanation := t
            solution := "See explanation above"
            alternativeCommand := none
            needsInteractiveMode := false }

/-- Sudo authentication-failure detection on stderr
(command.ts lines 361-365). -/
def isSudoAuthFailure (stderr : String) : Bool :=
  strIncludes stderr "Sorry, try again" ||
  strIncludes stderr "incorrect password" ||
  strIncludes stderr "authentication failure"

/-- `isPermissionError` (command.ts lines 1032-1040). -/
def isPermissionError (stderr : String) : Bool :=
  strIncludes stderr "Permission denied" ||
  strIncludes stderr "Operation not permitted" ||
  strIncludes stderr "Sorry, try again" ||
  strIncludes stderr "sudo: 3 incorrect password attempts" ||
  strIncludes stderr "authentication failure"

/-- Console output, tagged by kind: `diag` is an incremental human-readable
line printed with `console.log`/`console.error`; `spawned` marks a subprocess
spawn (whose own stdout/stderr stream through); `summaryLine` is the final
single-line JSON summary. -/
inductive Output where
  | diag (text : String)
  | spawned (command : String)
  | summaryLine (text : String)
deriving DecidableEq

/-- `displayCommandAnalysis` (command.ts lines 983-1010): entirely suppressed
in `jsonMode`. -/
def displayCommandAnalysis (cfg : Config) (analysis : CommandAnalysis) : List Output :=
  if cfg.jsonMode then []
  else
    [Output.diag analysis.command]
    ++ (if cfg.verbose then
          [Output.diag ("\n" ++ analysis.explanation)]
          ++ (if analysis.requiresExternalPackages && !(analysis.externalPackages == []) then
                [Output.diag ("\nRequires external packages: "
                  ++ String.intercalate ", " analysis.externalPackages)]
              else [])
        else [])
    ++ (if analysis.isDangerous then
          [Output.diag "[BLOCKED] This command is potentially dangerous and cannot be executed."]
        else [])

/-- `displayFailureAnalysis` (command.ts lines 1015-1027): entirely suppressed
in `jsonMode`. -/
def displayFailureAnalysis (cfg : Config) (analysis : FailureAnalysis) : List Output :=
  if cfg.jsonMode then []
  else
    [Output.diag analysis.explanation]
    ++ (if cfg.verbose && !(analysis.solution == analysis.explanation) then
          [Output.diag ("\nSolution: " ++ analysis.solution)]
        else [])
    ++ (if jsTruthy analysis.alternativeCommand then
          [Output.diag (analysis.alternativeCommand.getD "")]
        else [])

/-- `updateConversationHistory` (command.ts lines 930-953). -/
def updateConversationHistory (ctx : CommandContext) (userInput : String) : List Msg :=
  match ctx.currentAnalysis with
  | none => ctx.conversationHistory
  | some ca =>
    ctx.conversationHistory ++
      [⟨"user",
        if ctx.query = ctx.originalQuery then "I want to: " ++ ctx.query
        else "Based on our previous discussion, I want to: " ++ ctx.query⟩,
       ⟨"assistant",
        "I suggest this command: " ++ ca.command ++ "\n\nExplanation: " ++ ca.explanation⟩,
       ⟨"user", userInput⟩]

/-- `addFailureToHistory` (command.ts lines 958-978). -/
def addFailureToHistory (ctx : CommandContext) (fa : FailureAnalysis) : List Msg :=
  match ctx.lastError, ctx.currentAnalysis with
  | some le, some _ =>
    let failureMessage :=
      if jsTruthy fa.alternativeCommand then
        "The command failed with exit code " ++ toString le.exitCode ++ ". Error: "
          ++ le.stderr ++ "\n\nI suggest this alternative: "
          ++ fa.alternativeCommand.getD "" ++ "\n\nExplanation: " ++ fa.explanation
      else
        "The command failed with exit code " ++ toString le.exitCode ++ ". Error: "
          ++ le.stderr ++ "\n\nExplanation: " ++ fa.explanation
          ++ "\n\nSolution: " ++ fa.solution
    ctx.conversationHistory ++ [⟨"user", "Execute the command"⟩, ⟨"assistant", failureMessage⟩]
  | _, _ => ctx.conversationHistory

/-- The failure entry pushed on the timeout path (command.ts lines 347-354). -/
def timeoutFailureRecord (le : LastError) : FailureRecord :=
  ⟨le.command, le.exitCode, le.stdout, le.stderr,
   some "Command timed out", some "Increase timeout or optimize command", none⟩

/-- The failure entry pushed on the sudo-auth path (command.ts lines 374-380). -/
def sudoFailureRecord (le : LastError) : FailureRecord :=
  ⟨le.command, le.exitCode, le.stdout, le.stderr,
   some "Authentication failed (incorrect sudo password)", none, none⟩

/-- The failure entry pushed after a completed failure analysis
(command.ts lines 428-436); `alternativeCommand || undefined` drops a falsy
value. -/
def generalFailureRecord (le : LastError) (fa : FailureAnalysis) : FailureRecord :=
  ⟨le.command, le.exitCode, le.stdout, le.stderr,
   some fa.explanation, some fa.solution, jsStr fa.alternativeCommand⟩

/-- The diagnostic printed when stderr looks permission-related
(command.ts lines 406-413); the handler then continues to failure analysis. -/
def permissionDiag (le : LastError) : List Output :=
  if isPermissionError le.stderr then
    [Output.diag "\nPermission denied. Attempting analysis for alternative (e.g., with sudo)"]
  else []

/-- The notice printed on the no-alternative path (command.ts lines 461-465). -/
def noAlternativeDiag : Output :=
  Output.diag "\nNo alternative command suggested. You can modify the request or abort."

/-- `handleAnalyzing` (command.ts lines 241-257).  An `.error` means the
handler threw (caught by the loop in `execute`).  On a dangerous analysis the
reason is assigned directly (line 251); the analysis is displayed before the
dangerous check either way. -/
def handleAnalyzing (cfg : Config) (ctx : CommandContext)
    (structured : Except String (Option CommandAnalysis)) :
    Except String (CommandContext × List Output) :=
  match analyzeCommand structured with
  | .error e => .error e
  | .ok analysis =>
    if analysis.isDangerous then
      .ok ({ ctx with
             currentAnalysis := some analysis,
             abortedReason := some "dangerous-command",
             state := .aborted },
           displayCommandAnalysis cfg analysis)
    else
      .ok ({ ctx with currentAnalysis := some analysis, state := .confirming },
           displayCommandAnalysis cfg analysis)

/-- `handleConfirming` (command.ts lines 262-298).  `response` is the raw text
the user would type at the `[y/N/modify]` prompt; it is ignored on the
auto-approve path, which never prompts. -/
def handleConfirming (ctx : CommandContext) (response : String) :
    CommandContext × List Output :=
  match ctx.currentAnalysis with
  | none =>
    ({ ctx with
        abortedReason := jsOrElse ctx.abortedReason "missing-analysis",
                state := .aborted }, [])
  | some _ =>
    if ctx.autoApprove then ({ ctx with state := .executing }, [])
    else
      match promptUser response with
      | .approve => ({ ctx with state := .executing }, [])
      | .reject =>
        ({ ctx with
            abortedReason := jsOrElse ctx.abortedReason "user-rejected",
                    state := .aborted }, [])
      | .modify input =>
        if input = "" then (ctx, [])
        else
          ({ ctx with
              conversationHistory := updateConversationHistory ctx input,
                      query := input, state := .analyzing },
           [Output.diag ("Refining command based on: " ++ input)])

/-- The state update applied once the executor's result is in
(command.ts lines 316-331): reset the sudo-retry flag, and either succeed
(resetting `sudoAttempts`) or record `lastError` and count the failed
attempt.  The `spawned` output marks the subprocess invocation. -/
def applyExecResult (ctx : CommandContext) (command : String) (result : ExecutionResult) :
    CommandContext × List Output :=
  if result.exitCode = 0 then
    ({ ctx with
        isSudoRetry := false, sudoAttempts := 0, state := .success },
     [Output.spawned command])
  else
    ({ ctx with
        isSudoRetry := false,
        lastError := some ⟨command, result.exitCode, result.stdout, result.stderr⟩,
        attemptCount := ctx.attemptCount + 1,
        state := .failed },
     [Output.spawned command])

/-- `handleExecuting` (command.ts lines 303-332): run the executor on the
current command and fold its result into the context. -/
def handleExecuting (cfg : Config) (ctx : CommandContext) (outcome : ProcOutcome) :
    CommandContext × List Output :=
  match ctx.currentAnalysis with
  | none =>
    ({ ctx with
        abortedReason := jsOrElse ctx.abortedReason "missing-analysis",
                state := .aborted }, [])
  | some ca =>
    applyExecResult ctx ca.command
      (executeCommandResult cfg.timeoutMs cfg.forceTTY ca.needsInteractiveMode outcome)

/-- `handleFailed` (command.ts lines 337-493).  `structured`/`plainText` are
the failure-analysis oracle responses and `userResponse` is the text typed at
the "Try a different approach?" prompt; each is consumed only on the path that
needs it.  The `try`/`catch` around `analyzeFailure` is the `.error` case. -/
def handleFailed (cfg : Config) (ctx : CommandContext)
    (structured : Except String (Option FailureAnalysis))
    (plainText : Except String String) (userResponse : String) :
    CommandContext × List Output :=
  match ctx.lastError, ctx.currentAnalysis with
  | none, _ =>
    ({ ctx with
        abortedReason := jsOrElse ctx.abortedReason "missing-error-context",
                state := .aborted }, [])
  | _, none =>
    ({ ctx with
        abortedReason := jsOrElse ctx.abortedReason "missing-error-context",
                state := .aborted }, [])
  | some le, some ca =>
    if le.exitCode = 124 then
      ({ ctx with
          failures := ctx.failures ++ [timeoutFailureRecord le],
          abortedReason := jsOrElse ctx.abortedReason "timeout",
          state := .aborted },
       [Output.diag "timed out"])
    else if isSudoAuthFailure le.stderr then
      if ctx.sudoAttempts + 1 < 3 then
        if ctx.attemptCount ≥ ctx.maxTries then
          ({ ctx with
              sudoAttempts := ctx.sudoAttempts + 1,
              failures := ctx.failures ++ [sudoFailureRecord le],
              abortedReason := jsOrElse ctx.abortedReason "max-tries-exceeded",
              state := .aborted },
           [Output.diag "\nAuthentication failed. Incorrect sudo password.",
            Output.diag "Try again with the correct password.",
            Output.diag ("Max tries (" ++ toString ctx.maxTries ++ ") reached.")])
        else
          ({ ctx with
              sudoAttempts := ctx.sudoAttempts + 1,
              failures := ctx.failures ++ [sudoFailureRecord le],
              isSudoRetry := true, state := .executing },
           [Output.diag "\nAuthentication failed. Incorrect sudo password.",
            Output.diag "Try again with the correct password."])
      else
        ({ ctx with
            sudoAttempts := ctx.sudoAttempts + 1,
            failures := ctx.failures ++ [sudoFailureRecord le],
            abortedReason := jsOrElse ctx.abortedReason "sudo-auth-failed",
            state := .aborted },
         [Output.diag "\nAuthentication failed. Incorrect sudo password.",
          Output.diag "sudo: 3 incorrect password attempts"])
    else
      match analyzeFailure structured plainText with
      | .error e =>
        ({ ctx with
            abortedReason := jsOrElse ctx.abortedReason "failure-analysis-error",
                    state := .aborted },
         permissionDiag le ++ [Output.diag "(Unable to analyze failure)",
                               Output.diag ("Analysis error: " ++ e)])
      | .ok fa =>
        if ctx.attemptCount ≥ ctx.maxTries then
          ({ ctx with
              conversationHistory := addFailureToHistory ctx fa,
              failures := ctx.failures ++ [generalFailureRecord le fa],
              abortedReason := jsOrElse ctx.abortedReason "max-tries-exceeded",
              state := .aborted },
           permissionDiag le ++ displayFailureAnalysis cfg fa
             ++ [Output.diag ("Max tries (" ++ toString ctx.maxTries ++ ") reached.")])
        else
          match jsStr fa.alternativeCommand with
          | some alt =>
            ({ ctx with
                conversationHistory := addFailureToHistory ctx fa,
                failures := ctx.failures ++ [generalFailureRecord le fa],
                currentAnalysis := some { ca with
                  command := alt,
                  explanation := fa.solution,
                  needsInteractiveMode := fa.needsInteractiveMode },
                state := if ctx.autoApprove then .executing else .confirming },
             permissionDiag le ++ displayFailureAnalysis cfg fa)
          | none =>
            if ctx.autoApprove then
              ({ ctx with
                  conversationHistory := addFailureToHistory ctx fa,
                  failures := ctx.failures ++ [generalFailureRecord le fa],
                  abortedReason := jsOrElse ctx.abortedReason "no-alternative",
                  state := .aborted },
               permissionDiag le ++ displayFailureAnalysis cfg fa ++ [noAlternativeDiag])
            else
              match promptUser userResponse with
              | .modify input =>
                if input = "" then
                  ({ ctx with
                      conversationHistory := addFailureToHistory ctx fa,
                      failures := ctx.failures ++ [generalFailureRecord le fa],
                      abortedReason := jsOrElse ctx.abortedReason "user-aborted",
                      state := .aborted },
                   permissionDiag le ++ displayFailureAnalysis cfg fa ++ [noAlternativeDiag])
                else
                  ({ ctx with
                      conversationHistory := addFailureToHistory ctx fa,
                      failures := ctx.failures ++ [generalFailureRecord le fa],
                      query := input, state := .analyzing },
                   permissionDiag le ++ displayFailureAnalysis cfg fa ++ [noAlternativeDiag]
                     ++ [Output.diag ("Refining based on: " ++ input)])
              | _ =>
                ({ ctx with
                    conversationHistory := addFailureToHistory ctx fa,
                    failures := ctx.failures ++ [generalFailureRecord le fa],
                    abortedReason := jsOrElse ctx.abortedReason "user-aborted",
                    state := .aborted },
                 permissionDiag le ++ displayFailureAnalysis cfg fa ++ [noAlternativeDiag])

/-- The loop condition of `execute` (command.ts lines 171-174). -/
def isTerminal (ctx : CommandContext) : Bool :=
  decide (ctx.state = .success) || decide (ctx.state = .aborted)

/-- One iteration's worth of external interaction, consumed by the matching
state handler: the structured command-analysis response, the confirmation-gate
input, the subprocess outcome, or the failure-analysis responses together with
the retry-prompt input.  Payloads are ignored on paths that do not consult
them (for example, the gate input under auto-approve). -/
inductive Event where
  | analyzed (structured : Except String (Option CommandAnalysis))
  | userInput (response : String)
  | executed (outcome : ProcOutcome)
  | failureOracle (structured : Except String (Option FailureAnalysis))
      (plainText : Except String String) (userResponse : String)
deriving DecidableEq

/-- One iteration of the `while` loop in `execute` (command.ts lines 171-186):
dispatch on the state (`processState`), with the surrounding `try`/`catch`
printing the error and aborting with `"unexpected-error"` unless a more
specific reason was already set.  A terminal state, or an event that does not
match the current state, leaves the context unchanged. -/
def stepE (cfg : Config) (ctx : CommandContext) (ev : Event) : CommandContext × List Output :=
  if isTerminal ctx then (ctx, [])
  else
    match ctx.state, ev with
    | .analyzing, .analyzed structured =>
      match handleAnalyzing cfg ctx structured with
      | .ok r => r
      | .error e =>
        ({ ctx with
            abortedReason := jsOrElse ctx.abortedReason "unexpected-error",
                    state := .aborted },
         [Output.diag ("❌ Error: " ++ e)])
    | .confirming, .userInput response => handleConfirming ctx response
    | .executing, .executed outcome =>
      if outcomePossible cfg.timeoutMs outcome then handleExecuting cfg ctx outcome
      else (ctx, [])
    | .failed, .failureOracle s p u => handleFailed cfg ctx s p u
    | _, _ => (ctx, [])

/-- Run the state machine over a list of events, accumulating outputs. -/
def runSteps (cfg : Config) (ctx : CommandContext) : List Event → CommandContext × List Output
  | [] => (ctx, [])
  | ev :: evs =>
    let r := stepE cfg ctx ev
    let rest := runSteps cfg r.1 evs
    (rest.1, r.2 ++ rest.2)

/-- The context created at the top of `execute` (command.ts lines 159-169). -/
def initContext (cfg : Config) (query : String) : CommandContext :=
  { state := .analyzing
    query := query
    originalQuery := query
    conversationHistory := []
    currentAnalysis := none
    lastError := none
    isSudoRetry := false
    sudoAttempts := 0
    attemptCount := 0
    maxTries := cfg.maxTries
    failures := []
    autoApprove := cfg.autoApprove
    jsonMode := cfg.jsonMode
    abortedReason := none }

/-- The JSON summary object built at the end of `execute`
(command.ts lines 188-212). -/
structure Summary where
  status : String
  success : Bool
  abortedReason : Option String
  originalQuery : String
  finalQuery : String
  finalCommand : Option String
  explanation : Option String
  attempts : Nat
  failures : List FailureRecord
  alternativesTried : Nat
deriving DecidableEq

/-- JavaScript `a?.x || b?.y` on optional strings: the first operand wins when
truthy, otherwise the second is used as-is. -/
def jsOrOpt (a b : Option String) : Option String :=
  if jsTruthy a then a else b

/-- Build the summary from the terminal context (command.ts lines 190-209).
`alternativesTried` counts the failure entries whose `alternativeCommand` is
truthy. -/
def mkSummary (ctx : CommandContext) : Summary :=
  { status := ctx.state.tag
    success := decide (ctx.state = .success)
    abortedReason := ctx.abortedReason
    originalQuery := ctx.originalQuery
    finalQuery := ctx.query
    finalCommand := jsOrOpt (ctx.currentAnalysis.map (·.command)) (ctx.lastError.map (·.command))
    explanation := ctx.currentAnalysis.map (·.explanation)
    attempts := ctx.attemptCount
    failures := ctx.failures
    alternativesTried := (ctx.failures.filter (fun f => jsTruthy f.alternativeCommand)).length }

/-- Placeholder serialization of the summary; the engine prints it as a single
line (command.ts line 211). -/
def summaryText (s : Summary) : String :=
  s.status ++ "/" ++ toString s.attempts ++ "/" ++ toString s.alternativesTried

/-- A full session: `execute(query)` — run the loop to completion over the
event trace, then, if `jsonMode` was requested and a terminal state was
reached, emit exactly one summary line (command.ts lines 188-212). -/
def runSession (cfg : Config) (query : String) (evs : List Event) :
    CommandContext × List Output :=
  let r := runSteps cfg (initContext cfg query) evs
  (r.1, r.2 ++ (if r.1.jsonMode && isTerminal r.1 then
    [Output.summaryLine (summaryText (mkSummary r.1))] else []))

/-- Output classifier: is this the final JSON summary line? -/
def Output.isSummary : Output → Bool
  | .summaryLine _ => true
  | _ => false

/-- Output classifier: is this an incremental human-readable diagnostic? -/
def Output.isDiag : Output → Bool
  | .diag _ => true
  | _ => false

/-- Number of JSON summary lines in an output stream. -/
def summaryCount (outs : List Output) : Nat :=
  outs.countP (fun o => o.isSummary)

/-- Session accounting invariant, established at `initContext` and preserved by
every step: a reason is only ever set together with the terminal `aborted`
state; in the `failed` state the just-recorded error and analysis are present
and `attemptCount` is one ahead of `failures`; in every other non-terminal
state and in `success` the two agree; and at `aborted` they agree except on the
`failure-analysis-error` path, which aborts without recording the last
failure. -/
def Inv (ctx : CommandContext) : Prop :=
  (ctx.abortedReason ≠ none → ctx.state = .aborted) ∧
  (ctx.state = .failed →
    ctx.lastError ≠ none ∧ ctx.currentAnalysis ≠ none ∧
    ctx.attemptCount = ctx.failures.length + 1) ∧
  ((ctx.state = .analyzing ∨ ctx.state = .confirming ∨ ctx.state = .executing ∨
      ctx.state = .success) →
    ctx.attemptCount = ctx.failures.length) ∧
  (ctx.state = .aborted →
    ctx.attemptCount = ctx.failures.length ∨
    (ctx.abortedReason = some "failure-analysis-error" ∧
      ctx.attemptCount = ctx.failures.length + 1))

/-! Concrete fixtures used by counterexamples and witness instantiations. -/

/-- A benign command analysis. -/
def sampleOk : CommandAnalysis :=
  ⟨"ls", "lists files", false, false, [], false⟩

/-- A dangerous command analysis. -/
def sampleDanger : CommandAnalysis :=
  ⟨"rm -rf /", "removes everything", true, false, [], false⟩

/-- A failure analysis carrying no alternative. -/
def sampleNoAlt : FailureAnalysis :=
  ⟨"flag not recognized", "no safe alternative", none, false⟩

/-- A failure analysis carrying an alternative command. -/
def sampleAlt : FailureAnalysis :=
  ⟨"flag not recognized", "use -a instead", some "ls -a", false⟩

/-- `aish c ... -y` (auto-approve, defaults otherwise). -/
def cfgAuto : Config := ⟨none, false, false, true, 3, false⟩

/-- Interactive run with default flags. -/
def cfgInteractive : Config := ⟨none, false, false, false, 3, false⟩

/-- `aish c ... -y --timeout 1 --json`. -/
def cfgJsonTimeout : Config := ⟨some 1000, false, false, true, 3, true⟩

/-- Trace: benign analysis, auto-approval, one failed execution, then the
failure-analysis oracle call itself rejects. -/
def evsOracleCrash : List Event :=
  [.analyzed (.ok (some sampleOk)),
   .userInput "",
   .executed (.closed (some 1) "" "boom"),
   .failureOracle (.error "network error") (.ok "unused") ""]

/-- Trace: benign analysis approved, one failed execution, failure analysis
with no alternative, the user asks to modify, and the re-analysis comes back
dangerous. -/
def evsDangerAfterFailure : List Event :=
  [.analyzed (.ok (some sampleOk)),
   .userInput "y",
   .executed (.closed (some 1) "" "bad flag"),
   .failureOracle (.ok (some sampleNoAlt)) (.ok "unused") "try something else",
   .analyzed (.ok (some sampleDanger))]

/-- Trace: benign analysis, auto-approval, the timeout timer fires, then the
`FAILED` handler runs its timeout path. -/
def evsTimeoutRun : List Event :=
  [.analyzed (.ok (some sampleOk)),
   .userInput "",
   .executed (.timerFired "" ""),
   .failureOracle (.ok (some sampleNoAlt)) (.ok "unused") ""]

/-- A `FAILED` context at the loop-guard ceiling (three failed executions
already counted, `maxTries` 3). -/
def ctxFailedAtMax : CommandContext :=
  { state := .failed, query := "q", originalQuery := "q", conversationHistory := []
    currentAnalysis := some sampleOk
    lastError := some ⟨"ls --bogus", 1, "", "unknown option"⟩
    isSudoRetry := false, sudoAttempts := 0, attemptCount := 3, maxTries := 3
    failures := [], autoApprove := true, jsonMode := false, abortedReason := none }

/-- A `FAILED` context after a first failed execution (auto-approve mode). -/
def ctxFailedOnce : CommandContext :=
  { state := .failed, query := "q", originalQuery := "q", conversationHistory := []
    currentAnalysis := some sampleOk
    lastError := some ⟨"ls --bogus", 1, "", "unknown option"⟩
    isSudoRetry := false, sudoAttempts := 0, attemptCount := 1, maxTries := 3
    failures := [], autoApprove := true, jsonMode := false, abortedReason := none }

/-- An `EXECUTING` context about to run the approved command. -/
def ctxExecuting : CommandContext :=
  { state := .executing, query := "q", originalQuery := "q", conversationHistory := []
    currentAnalysis := some sampleOk
    lastError := none
    isSudoRetry := false, sudoAttempts := 0, attemptCount := 0, maxTries := 3
    failures := [], autoApprove := true, jsonMode := false, abortedReason := none }

/-- An interactive configuration with the default loop-guard ceiling 3, no
forced TTY; timeout, verbosity and json flags are arbitrary. -/
def cfgC4 (tm : Option Nat) (vb jm : Bool) : Config :=
  ⟨tm, vb, false, false, 3, jm⟩

/-- A non-dangerous, non-interactive analysis with arbitrary command text. -/
def anaC4 (cmd expl : String) (rep : Bool) (pkgs : List String) : CommandAnalysis :=
  ⟨cmd, expl, false, rep, pkgs, false⟩

/-- Trace: sudo-style session — the command is approved once, then each of the
three executions completes with exit code 1 and stderr `se` (a sudo
authentication failure message); the three `failureOracle` events carry
whatever the oracle/prompt would have returned, which the sudo path does not
consult. -/
def evsC4 (cmd expl : String) (rep : Bool) (pkgs : List String) (so se : String)
    (s1 s2 s3 : Except String (Option FailureAnalysis))
    (p1 p2 p3 : Except String String) (u1 u2 u3 : String) : List Event :=
  [.analyzed (.ok (some (anaC4 cmd expl rep pkgs))),
   .userInput "y",
   .executed (.closed (some 1) so se),
   .failureOracle s1 p1 u1,
   .executed (.closed (some 1) so se),
   .failureOracle s2 p2 u2,
   .executed (.closed (some 1) so se),
   .failureOracle s3 p3 u3]

/-! Structural lemmas about the loop. -/

theorem stepE_terminal (cfg : Config) (ctx : CommandContext) (ev : Event)
    (h : isTerminal ctx = true) : stepE cfg ctx ev = (ctx, []) := by
  unfold stepE
  rw [if_pos h]

theorem runSteps_terminal (cfg : Config) (ctx : CommandContext) (evs : List Event)
    (h : isTerminal ctx = true) : runSteps cfg ctx evs = (ctx, []) := by
  induction evs with
  | nil => rfl
  | cons e es ih => simp [runSteps, stepE_terminal _ _ _ h, ih]

theorem runSteps_fst (cfg : Config) (ctx : CommandContext) (evs : List Event) :
    (runSteps cfg ctx evs).1 = evs.foldl (fun c e => (stepE cfg c e).1) ctx := by
  induction evs generalizing ctx with
  | nil => rfl
  | cons e es ih => simp [runSteps, ih]

theorem runSession_fst (cfg : Config) (q : String) (evs : List Event) :
    (runSession cfg q evs).1 = (runSteps cfg (initContext cfg q) evs).1 := rfl

theorem handleConfirming_jsonMode (ctx : CommandContext) (resp : String) :
    (handleConfirming ctx resp).1.jsonMode = ctx.jsonMode := by
  unfold handleConfirming
  repeat' split
  all_goals rfl

theorem handleAnalyzing_ok_jsonMode (cfg : Config) (ctx : CommandContext)
    (s : Except String (Option CommandAnalysis)) (r : CommandContext × List Output)
    (h : handleAnalyzing cfg ctx s = .ok r) : r.1.jsonMode = ctx.jsonMode := by
  unfold handleAnalyzing at h
  split at h
  · exact absurd h (by simp)
  · split at h <;> (simp only [Except.ok.injEq] at h; subst h; rfl)

theorem applyExecResult_jsonMode (ctx : CommandContext) (c : String) (r : ExecutionResult) :
    (applyExecResult ctx c r).1.jsonMode = ctx.jsonMode := by
  unfold applyExecResult
  repeat' split
  all_goals rfl

theorem handleExecuting_jsonMode (cfg : Config) (ctx : CommandContext) (o : ProcOutcome) :
    (handleExecuting cfg ctx o).1.jsonMode = ctx.jsonMode := by
  unfold handleExecuting
  repeat' split
  all_goals first
    | rfl
    | exact applyExecResult_jsonMode _ _ _

theorem handleFailed_jsonMode (cfg : Config) (ctx : CommandContext)
    (s : Except String (Option FailureAnalysis)) (p : Except String String) (u : String) :
    (handleFailed cfg ctx s p u).1.jsonMode = ctx.jsonMode := by
  unfold handleFailed
  repeat' split
  all_goals rfl

theorem stepE_jsonMode (cfg : Config) (ctx : CommandContext) (ev : Event) :
    (stepE cfg ctx ev).1.jsonMode = ctx.jsonMode := by
  unfold stepE
  split
  · rfl
  · split
    · split
      · rename_i r hr
        exact handleAnalyzing_ok_jsonMode _ _ _ _ hr
      · rfl
    · exact handleConfirming_jsonMode _ _
    · split
      · exact handleExecuting_jsonMode _ _ _
      · rfl
    · exact handleFailed_jsonMode _ _ _ _ _
    · rfl

theorem runSteps_jsonMode (cfg : Config) (ctx : CommandContext) (evs : List Event) :
    (runSteps cfg ctx evs).1.jsonMode = ctx.jsonMode := by
  induction evs generalizing ctx with
  | nil => rfl
  | cons e es ih => simp [runSteps, ih, stepE_jsonMode]

@[simp] theorem summaryCount_nil : summaryCount [] = 0 := rfl

@[simp] theorem summaryCount_cons (o : Output) (l : List Output) :
    summaryCount (o :: l) = (if o.isSummary then 1 else 0) + summaryCount l := by
  simp [summaryCount, List.countP_cons]
  omega

@[simp] theorem summaryCount_append (a b : List Output) :
    summaryCount (a ++ b) = summaryCount a + summaryCount b := by
  simp [summaryCount, List.countP_append]

theorem displayCommandAnalysis_summaryCount (cfg : Config) (a : CommandAnalysis) :
    summaryCount (displayCommandAnalysis cfg a) = 0 := by
  unfold displayCommandAnalysis
  repeat' split
  all_goals simp [Output.isSummary]

theorem displayFailureAnalysis_summaryCount (cfg : Config) (fa : FailureAnalysis) :
    summaryCount (displayFailureAnalysis cfg fa) = 0 := by
  unfold displayFailureAnalysis
  repeat' split
  all_goals simp [Output.isSummary]

theorem permissionDiag_summaryCount (le : LastError) :
    summaryCount (permissionDiag le) = 0 := by
  unfold permissionDiag
  split
  all_goals simp [Output.isSummary]

theorem handleAnalyzing_ok_summaryCount (cfg : Config) (ctx : CommandContext)
    (s : Except String (Option CommandAnalysis)) (r : CommandContext × List Output)
    (h : handleAnalyzing cfg ctx s = .ok r) : summaryCount r.2 = 0 := by
  unfold handleAnalyzing at h
  split at h
  · exact absurd h (by simp)
  · split at h <;>
      (simp only [Except.ok.injEq] at h; subst h; exact displayCommandAnalysis_summaryCount _ _)

theorem handleConfirming_summaryCount (ctx : CommandContext) (resp : String) :
    summaryCount (handleConfirming ctx resp).2 = 0 := by
  unfold handleConfirming
  repeat' split
  all_goals simp [Output.isSummary]

theorem applyExecResult_summaryCount (ctx : CommandContext) (c : String) (r : ExecutionResult) :
    summaryCount (applyExecResult ctx c r).2 = 0 := by
  unfold applyExecResult
  repeat' split
  all_goals simp [Output.isSummary]

theorem handleExecuting_summaryCount (cfg : Config) (ctx : CommandContext) (o : ProcOutcome) :
    summaryCount (handleExecuting cfg ctx o).2 = 0 := by
  unfold handleExecuting
  repeat' split
  all_goals first
    | exact applyExecResult_summaryCount _ _ _
    | simp [Output.isSummary]

theorem handleFailed_summaryCount (cfg : Config) (ctx : CommandContext)
    (s : Except String (Option FailureAnalysis)) (p : Except String String) (u : String) :
    summaryCount (handleFailed cfg ctx s p u).2 = 0 := by
  unfold handleFailed
  repeat' split
  all_goals
    simp [permissionDiag_summaryCount, displayFailureAnalysis_summaryCount,
      Output.isSummary, noAlternativeDiag]

theorem stepE_summaryCount (cfg : Config) (ctx : CommandContext) (ev : Event) :
    summaryCount (stepE cfg ctx ev).2 = 0 := by
  unfold stepE
  split
  · rfl
  · split
    · split
      · rename_i r hr
        exact handleAnalyzing_ok_summaryCount _ _ _ _ hr
      · simp [Output.isSummary]
    · exact handleConfirming_summaryCount _ _
    · split
      · exact handleExecuting_summaryCount _ _ _
      · rfl
    · exact handleFailed_summaryCount _ _ _ _ _
    · rfl

theorem runSteps_summaryCount (cfg : Config) (ctx : CommandContext) (evs : List Event) :
    summaryCount (runSteps cfg ctx evs).2 = 0 := by
  induction evs generalizing ctx with
  | nil => rfl
  | cons e es ih =>
    simp [runSteps, summaryCount_append, stepE_summaryCount, ih]

/-! The attempt-counting invariant and its preservation. -/

theorem Inv_initContext (cfg : Config) (q : String) : Inv (initContext cfg q) := by
  simp [Inv, initContext]

theorem Inv_reason_none {ctx : CommandContext} (h : Inv ctx) (hs : ctx.state ≠ .aborted) :
    ctx.abortedReason = none := by
  by_contra hne
  exact hs (h.1 hne)

theorem Inv_handleAnalyzing (cfg : Config) (ctx : CommandContext)
    (s : Except String (Option CommandAnalysis)) (r : CommandContext × List Output)
    (hs : ctx.state = .analyzing) (h : Inv ctx)
    (hr : handleAnalyzing cfg ctx s = .ok r) : Inv r.1 := by
  have hat : ctx.attemptCount = ctx.failures.length := h.2.2.1 (Or.inl hs)
  have hab : ctx.abortedReason = none := Inv_reason_none h (by simp [hs])
  unfold handleAnalyzing at hr
  split at hr
  · exact absurd hr (by simp)
  · split at hr <;> (simp only [Except.ok.injEq] at hr; subst hr) <;>
      simp [Inv, hat, hab]

theorem Inv_handleConfirming (ctx : CommandContext) (resp : String)
    (hs : ctx.state = .confirming) (h : Inv ctx) : Inv (handleConfirming ctx resp).1 := by
  have hat : ctx.attemptCount = ctx.failures.length := h.2.2.1 (by simp [hs])
  have hab : ctx.abortedReason = none := Inv_reason_none h (by simp [hs])
  unfold handleConfirming
  repeat' split
  all_goals simp_all [Inv, jsOrElse, jsTruthy]

theorem Inv_handleExecuting (cfg : Config) (ctx : CommandContext) (o : ProcOutcome)
    (hs : ctx.state = .executing) (h : Inv ctx) : Inv (handleExecuting cfg ctx o).1 := by
  have hat : ctx.attemptCount = ctx.failures.length := h.2.2.1 (by simp [hs])
  have hab : ctx.abortedReason = none := Inv_reason_none h (by simp [hs])
  unfold handleExecuting applyExecResult
  repeat' split
  all_goals simp_all [Inv, jsOrElse, jsTruthy]

theorem Inv_handleFailed (cfg : Config) (ctx : CommandContext)
    (s : Except String (Option FailureAnalysis)) (p : Except String String) (u : String)
    (hs : ctx.state = .failed) (h : Inv ctx) : Inv (handleFailed cfg ctx s p u).1 := by
  have hle : ctx.lastError ≠ none := (h.2.1 hs).1
  have hca : ctx.currentAnalysis ≠ none := (h.2.1 hs).2.1
  have hat : ctx.attemptCount = ctx.failures.length + 1 := (h.2.1 hs).2.2
  have hab : ctx.abortedReason = none := Inv_reason_none h (by simp [hs])
  unfold handleFailed
  repeat' split
  all_goals simp_all [Inv, jsOrElse, jsTruthy]

theorem Inv_stepE (cfg : Config) (ctx : CommandContext) (ev : Event) (h : Inv ctx) :
    Inv (stepE cfg ctx ev).1 := by
  unfold stepE
  by_cases hterm : isTerminal ctx = true
  · rw [if_pos hterm]; exact h
  · rw [if_neg hterm]
    cases hstate : ctx.state with
    | analyzing =>
      cases ev with
      | analyzed s =>
        dsimp only
        cases hr : handleAnalyzing cfg ctx s with
        | ok r => exact Inv_handleAnalyzing cfg ctx s r hstate h hr
        | error e =>
          have hat : ctx.attemptCount = ctx.failures.length := h.2.2.1 (Or.inl hstate)
          have hab : ctx.abortedReason = none := Inv_reason_none h (by simp [hstate])
          simp [Inv, hat, hab, jsOrElse, jsTruthy]
      | userInput r => exact h
      | executed o => exact h
      | failureOracle a b c => exact h
    | confirming =>
      cases ev with
      | analyzed s => exact h
      | userInput resp => exact Inv_handleConfirming ctx resp hstate h
      | executed o => exact h
      | failureOracle a b c => exact h
    | executing =>
      cases ev with
      | analyzed s => exact h
      | userInput r => exact h
      | executed o =>
        show Inv (if outcomePossible cfg.timeoutMs o = true then handleExecuting cfg ctx o
          else (ctx, [])).1
        by_cases hp : outcomePossible cfg.timeoutMs o = true
        · rw [if_pos hp]; exact Inv_handleExecuting cfg ctx o hstate h
        · rw [if_neg hp]; exact h
      | failureOracle a b c => exact h
    | failed =>
      cases ev with
      | analyzed s => exact h
      | userInput r => exact h
      | executed o => exact h
      | failureOracle a b c => exact Inv_handleFailed cfg ctx a b c hstate h
    | success => simp [isTerminal, hstate] at hterm
    | aborted => simp [isTerminal, hstate] at hterm

theorem Inv_runSteps (cfg : Config) (ctx : CommandContext) (evs : List Event) (h : Inv ctx) :
    Inv (runSteps cfg ctx evs).1 := by
  induction evs generalizing ctx with
  | nil => exact h
  | cons e es ih => simpa [runSteps] using ih _ (Inv_stepE cfg ctx e h)

theorem displayCommandAnalysis_no_spawned (cfg : Config) (a : CommandAnalysis) (c : String) :
    Output.spawned c ∉ displayCommandAnalysis cfg a := by
  unfold displayCommandAnalysis
  repeat' split
  all_goals simp

/-! Claim theorems. -/

/-- C7: for every interactive confirmation prompt, `promptUser` maps the raw
input exactly as the spec's Confirmation Gate contract prescribes: after
trimming and lowercasing, empty input or `n`/`no` rejects, `y`/`yes` approves,
any other input longer than one character becomes a modification request
carrying the trimmed text, and any other single character rejects. -/
theorem c7_gate_matches_spec (s : String) : promptUser s = specGateDecision s := by
  simp only [promptUser, specGateDecision]
  by_cases hy : strToLower (strTrim s) = "y" ∨ strToLower (strTrim s) = "yes"
  · have hr : ¬(strToLower (strTrim s) = "" ∨ strToLower (strTrim s) = "n" ∨ strToLower (strTrim s) = "no") := by
      rintro (h | h | h) <;> rcases hy with hy | hy <;> rw [hy] at h <;>
        exact absurd h (by decide)
    rw [if_pos hy, if_neg hr, if_pos hy]
  · by_cases hn : strToLower (strTrim s) = "n" ∨ strToLower (strTrim s) = "no" ∨ strToLower (strTrim s) = ""
    · have hr : strToLower (strTrim s) = "" ∨ strToLower (strTrim s) = "n" ∨ strToLower (strTrim s) = "no" := by
        tauto
      rw [if_neg hy, if_pos hn, if_pos hr]
    · have hr : ¬(strToLower (strTrim s) = "" ∨ strToLower (strTrim s) = "n" ∨ strToLower (strTrim s) = "no") := by
        tauto
      rw [if_neg hy, if_neg hn, if_neg hr, if_neg hy]

/-- C9: a child process that closes with a `null` exit code (terminated by a
signal outside the timeout/interrupt paths) yields `exitCode` 0 via
`code || 0`, and the session therefore transitions to `SUCCESS` (resetting
`sudoAttempts`) exactly as a genuinely successful command would. -/
theorem c9_null_exit_treated_as_success (cfg : Config) (ctx : CommandContext)
    (ca : CommandAnalysis) (so se : String)
    (hstate : ctx.state = .executing) (hca : ctx.currentAnalysis = some ca) :
    (executeCommandResult cfg.timeoutMs cfg.forceTTY ca.needsInteractiveMode
      (.closed none so se)).exitCode = 0 ∧
    (stepE cfg ctx (.executed (.closed none so se))).1.state = CommandState.success ∧
    (stepE cfg ctx (.executed (.closed none so se))).1.sudoAttempts = 0 := by
  have hni : isTerminal ctx = false := by simp [isTerminal, hstate]
  refine ⟨by simp [executeCommandResult, jsExitCode], ?_, ?_⟩ <;>
    simp [stepE, hni, hstate, outcomePossible, handleExecuting, hca, applyExecResult,
      executeCommandResult, jsExitCode]

/-- C9 witness: a concrete `EXECUTING` context and a signal-terminated close. -/
theorem c9_witness :
    ctxExecuting.state = CommandState.executing ∧
    (stepE cfgAuto ctxExecuting (.executed (.closed none "" ""))).1.state =
      CommandState.success :=
  ⟨by decide,
   (c9_null_exit_treated_as_success cfgAuto ctxExecuting sampleOk "" "" (by decide)
     (by decide)).2.1⟩

/-- C10: when the structured command-analysis call returns no parsable data,
`analyzeCommand` throws `"Failed to analyze command"` (there is no plain-text
fallback), and the loop's catch-all aborts the session with
`"unexpected-error"`, printing the error line. -/
theorem c10_analysis_parse_failure_aborts (cfg : Config) (ctx : CommandContext)
    (hstate : ctx.state = .analyzing) (hab : ctx.abortedReason = none) :
    analyzeCommand (.ok none) = .error "Failed to analyze command" ∧
    (stepE cfg ctx (.analyzed (.ok none))).1.state = CommandState.aborted ∧
    (stepE cfg ctx (.analyzed (.ok none))).1.abortedReason = some "unexpected-error" ∧
    Output.diag ("❌ Error: " ++ "Failed to analyze command") ∈
      (stepE cfg ctx (.analyzed (.ok none))).2 := by
  have hni : isTerminal ctx = false := by simp [isTerminal, hstate]
  refine ⟨rfl, ?_, ?_, ?_⟩ <;>
    simp [stepE, hni, hstate, handleAnalyzing, analyzeCommand, hab, jsOrElse, jsTruthy]

/-- C10 witness: the initial context of a session, with a dataless oracle
response. -/
theorem c10_witness :
    (initContext cfgAuto "q").state = CommandState.analyzing ∧
    (stepE cfgAuto (initContext cfgAuto "q") (.analyzed (.ok none))).1.abortedReason =
      some "unexpected-error" :=
  ⟨by decide,
   (c10_analysis_parse_failure_aborts cfgAuto (initContext cfgAuto "q") (by decide)
     (by decide)).2.2.1⟩

/-- C3: in the `FAILED` state, once a failure analysis completes with
`attemptCount ≥ maxTries`, the session aborts with `"max-tries-exceeded"` —
for every `FailureAnalysis` the oracle may have produced, non-null alternative
included — records the failure entry, and takes no further step (the
alternative is never executed). -/
theorem c3_max_tries_overrides_alternative (cfg : Config) (ctx : CommandContext)
    (s : Except String (Option FailureAnalysis)) (p : Except String String) (u : String)
    (le : LastError) (ca : CommandAnalysis) (fa : FailureAnalysis)
    (hstate : ctx.state = .failed) (hle : ctx.lastError = some le)
    (hca : ctx.currentAnalysis = some ca) (hab : ctx.abortedReason = none)
    (h124 : le.exitCode ≠ 124) (hsudo : isSudoAuthFailure le.stderr = false)
    (hfa : analyzeFailure s p = .ok fa)
    (hmax : ctx.attemptCount ≥ ctx.maxTries) :
    (stepE cfg ctx (.failureOracle s p u)).1.state = CommandState.aborted ∧
    (stepE cfg ctx (.failureOracle s p u)).1.abortedReason = some "max-tries-exceeded" ∧
    (stepE cfg ctx (.failureOracle s p u)).1.failures =
      ctx.failures ++ [generalFailureRecord le fa] ∧
    ∀ evs, runSteps cfg (stepE cfg ctx (.failureOracle s p u)).1 evs =
      ((stepE cfg ctx (.failureOracle s p u)).1, []) := by
  have hni : isTerminal ctx = false := by simp [isTerminal, hstate]
  refine ⟨?_, ?_, ?_, ?_⟩
  · simp [stepE, hni, hstate, handleFailed, hle, hca, h124, hsudo, hfa, hmax, hab,
      jsOrElse, jsTruthy]
  · simp [stepE, hni, hstate, handleFailed, hle, hca, h124, hsudo, hfa, hmax, hab,
      jsOrElse, jsTruthy]
  · simp [stepE, hni, hstate, handleFailed, hle, hca, h124, hsudo, hfa, hmax, hab,
      jsOrElse, jsTruthy]
  · intro evs
    apply runSteps_terminal
    simp [isTerminal, stepE, hni, hstate, handleFailed, hle, hca, h124, hsudo, hfa, hmax,
      hab, jsOrElse, jsTruthy]

/-- C3 witness: a context at the ceiling with an alternative-carrying failure
analysis; the alternative is ignored. -/
theorem c3_witness :
    ctxFailedAtMax.attemptCount ≥ ctxFailedAtMax.maxTries ∧
    sampleAlt.alternativeCommand = some "ls -a" ∧
    (stepE cfgAuto ctxFailedAtMax
      (.failureOracle (.ok (some sampleAlt)) (.ok "x") "")).1.abortedReason =
      some "max-tries-exceeded" :=
  ⟨by decide, by decide,
   (c3_max_tries_overrides_alternative cfgAuto ctxFailedAtMax (.ok (some sampleAlt))
     (.ok "x") "" ⟨"ls --bogus", 1, "", "unknown option"⟩ sampleOk sampleAlt
     (by decide) (by decide) (by decide) (by decide) (by decide) (by decide) rfl
     (by decide)).2.1⟩

/-- C5: with a positive configured timeout, when the timer fires before the
subprocess completes the executor resolves with exit code 124 and the elapsed
timeout appended to stderr; the session records the failed attempt and then
aborts with `"timeout"`, pushing exactly one failure entry. -/
theorem c5_timeout_aborts (cfg : Config) (t : Nat) (ctx : CommandContext)
    (ca : CommandAnalysis) (so se : String)
    (s : Except String (Option FailureAnalysis)) (p : Except String String) (u : String)
    (htm : cfg.timeoutMs = some t) (ht : 0 < t)
    (hstate : ctx.state = .executing) (hca : ctx.currentAnalysis = some ca)
    (hab : ctx.abortedReason = none) :
    (executeCommandResult cfg.timeoutMs cfg.forceTTY ca.needsInteractiveMode
      (.timerFired so se)).exitCode = 124 ∧
    (executeCommandResult cfg.timeoutMs cfg.forceTTY ca.needsInteractiveMode
      (.timerFired so se)).stderr =
      se ++ "\nCommand timed out after " ++ toString (t / 1000) ++ " seconds" ∧
    (stepE cfg ctx (.executed (.timerFired so se))).1.state = CommandState.failed ∧
    (stepE cfg ctx (.executed (.timerFired so se))).1.attemptCount = ctx.attemptCount + 1 ∧
    (stepE cfg (stepE cfg ctx (.executed (.timerFired so se))).1
        (.failureOracle s p u)).1.state = CommandState.aborted ∧
    (stepE cfg (stepE cfg ctx (.executed (.timerFired so se))).1
        (.failureOracle s p u)).1.abortedReason = some "timeout" ∧
    (stepE cfg (stepE cfg ctx (.executed (.timerFired so se))).1
        (.failureOracle s p u)).1.failures.length = ctx.failures.length + 1 := by
  have hni : isTerminal ctx = false := by simp [isTerminal, hstate]
  have hposs : outcomePossible (some t) (.timerFired so se) = true := by
    simp [outcomePossible, timeoutConfigured]
    omega
  have hstep1 : stepE cfg ctx (.executed (.timerFired so se)) =
      ({ ctx with
          isSudoRetry := false,
          lastError := some ⟨ca.command, 124, so,
            se ++ "\nCommand timed out after " ++ toString (t / 1000) ++ " seconds"⟩,
          attemptCount := ctx.attemptCount + 1,
          state := .failed },
       [Output.spawned ca.command]) := by
    simp [stepE, hni, hstate, hposs, handleExecuting, hca, applyExecResult,
      executeCommandResult, htm]
  refine ⟨by simp [executeCommandResult], by simp [executeCommandResult, htm], ?_, ?_, ?_, ?_, ?_⟩
  · simp [hstep1]
  · simp [hstep1]
  all_goals
    rw [hstep1]
    simp [stepE, isTerminal, handleFailed, hca, hab, jsOrElse, jsTruthy]

/-- C5 witness: an executing context under `--timeout 1`, with the timer
firing. -/
theorem c5_witness :
    cfgJsonTimeout.timeoutMs = some 1000 ∧
    (stepE cfgJsonTimeout
      (stepE cfgJsonTimeout { ctxExecuting with jsonMode := true }
        (.executed (.timerFired "" ""))).1
      (.failureOracle (.ok (some sampleNoAlt)) (.ok "x") "")).1.abortedReason =
      some "timeout" :=
  ⟨by decide,
   (c5_timeout_aborts cfgJsonTimeout 1000 { ctxExecuting with jsonMode := true } sampleOk
     "" "" (.ok (some sampleNoAlt)) (.ok "x") "" (by decide) (by decide) (by decide)
     (by decide) (by decide)).2.2.2.2.2.1⟩

/-- C6: when the structured failure-analysis response carries no validated
data, `analyzeFailure` falls back to the plain-text generation and synthesizes
a `FailureAnalysis` with `alternativeCommand = null` and
`needsInteractiveMode = false` instead of throwing; in auto-approve mode below
the ceiling the session then takes the no-alternative path, aborting with
`"no-alternative"` after recording the failure entry. -/
theorem c6_parse_fallback_no_alternative (cfg : Config) (ctx : CommandContext)
    (le : LastError) (ca : CommandAnalysis) (txt : String) (u : String)
    (hstate : ctx.state = .failed) (hle : ctx.lastError = some le)
    (hca : ctx.currentAnalysis = some ca) (hab : ctx.abortedReason = none)
    (h124 : le.exitCode ≠ 124) (hsudo : isSudoAuthFailure le.stderr = false)
    (hauto : ctx.autoApprove = true) (hlt : ctx.attemptCount < ctx.maxTries) :
    analyzeFailure (.ok none) (.ok txt) =
      .ok ⟨txt, "See explanation above", none, false⟩ ∧
    (stepE cfg ctx (.failureOracle (.ok none) (.ok txt) u)).1.state =
      CommandState.aborted ∧
    (stepE cfg ctx (.failureOracle (.ok none) (.ok txt) u)).1.abortedReason =
      some "no-alternative" ∧
    (stepE cfg ctx (.failureOracle (.ok none) (.ok txt) u)).1.failures =
      ctx.failures ++ [generalFailureRecord le ⟨txt, "See explanation above", none, false⟩] := by
  have hni : isTerminal ctx = false := by simp [isTerminal, hstate]
  have hge : ¬(ctx.attemptCount ≥ ctx.maxTries) := not_le.mpr hlt
  refine ⟨rfl, ?_, ?_, ?_⟩ <;>
    simp [stepE, hni, hstate, handleFailed, hle, hca, h124, hsudo, hge, hauto, hab,
      analyzeFailure, jsStr, jsOrElse, jsTruthy]

/-- C6 witness: a first failure in auto-approve mode whose structured
failure-analysis response has no data. -/
theorem c6_witness :
    ctxFailedOnce.attemptCount < ctxFailedOnce.maxTries ∧
    (stepE cfgAuto ctxFailedOnce
      (.failureOracle (.ok none) (.ok "the flag does not exist") "")).1.abortedReason =
      some "no-alternative" :=
  ⟨by decide,
   (c6_parse_fallback_no_alternative cfgAuto ctxFailedOnce
     ⟨"ls --bogus", 1, "", "unknown option"⟩ sampleOk "the flag does not exist" ""
     (by decide) (by decide) (by decide) (by decide) (by decide) (by decide) (by decide)
     (by decide)).2.2.1⟩

/-- C2 counterexample: a session in which one execution fails, the user then
modifies the request, and the re-analysis is flagged dangerous — the session
ends with `abortedReason = "dangerous-command"` but `attemptCount = 1` and the
executor was invoked, refuting the claim that every dangerous-flagged session
terminates with `attemptCount = 0` and no executor invocation. -/
theorem c2_counterexample :
    (runSession cfgInteractive "list files" evsDangerAfterFailure).1.abortedReason =
      some "dangerous-command" ∧
    (runSession cfgInteractive "list files" evsDangerAfterFailure).1.attemptCount = 1 ∧
    Output.spawned "ls" ∈ (runSession cfgInteractive "list files" evsDangerAfterFailure).2 := by
  refine ⟨by decide, by decide, by decide⟩

/-- C2 (amended): when the oracle flags the analysis dangerous, the machine
immediately sets `abortedReason = "dangerous-command"` and aborts without
executing that command, leaving `attemptCount` untouched; in particular a
session whose first analysis is dangerous terminates with `attemptCount = 0`
and the Process Executor is never invoked. -/
theorem c2_dangerous_first_analysis (cfg : Config) (q : String) (a : CommandAnalysis)
    (evs : List Event) (hd : a.isDangerous = true) :
    (runSession cfg q (.analyzed (.ok (some a)) :: evs)).1.state = CommandState.aborted ∧
    (runSession cfg q (.analyzed (.ok (some a)) :: evs)).1.abortedReason =
      some "dangerous-command" ∧
    (runSession cfg q (.analyzed (.ok (some a)) :: evs)).1.attemptCount = 0 ∧
    ∀ c, Output.spawned c ∉ (runSession cfg q (.analyzed (.ok (some a)) :: evs)).2 := by
  have h1 : stepE cfg (initContext cfg q) (.analyzed (.ok (some a))) =
      ({ initContext cfg q with
          currentAnalysis := some a,
          abortedReason := some "dangerous-command",
          state := CommandState.aborted },
       displayCommandAnalysis cfg a) := by
    simp [stepE, isTerminal, initContext, handleAnalyzing, analyzeCommand, hd]
  have hterm : isTerminal ({ initContext cfg q with
      currentAnalysis := some a,
      abortedReason := some "dangerous-command",
      state := CommandState.aborted }) = true := by
    simp [isTerminal]
  have hrun : runSteps cfg (initContext cfg q) (.analyzed (.ok (some a)) :: evs) =
      ({ initContext cfg q with
          currentAnalysis := some a,
          abortedReason := some "dangerous-command",
          state := CommandState.aborted },
       displayCommandAnalysis cfg a) := by
    simp [runSteps, h1, runSteps_terminal _ _ evs hterm]
  refine ⟨?_, ?_, ?_, ?_⟩
  · rw [runSession_fst, hrun]
  · rw [runSession_fst, hrun]
  · rw [runSession_fst, hrun]
    simp [initContext]
  · intro c hc
    simp only [runSession, hrun] at hc
    rcases List.mem_append.mp hc with hc | hc
    · exact displayCommandAnalysis_no_spawned cfg a c hc
    · split at hc <;> simp_all

/-- C2 amended witness: a session whose first (and only) analysis is
dangerous. -/
theorem c2_amended_witness :
    sampleDanger.isDangerous = true ∧
    (runSession cfgAuto "delete everything"
      [.analyzed (.ok (some sampleDanger))]).1.abortedReason = some "dangerous-command" :=
  ⟨rfl,
   (c2_dangerous_first_analysis cfgAuto "delete everything" sampleDanger [] rfl).2.1⟩

/-- C8 counterexample: in `jsonMode` the timeout path still prints the
human-readable `"timed out"` diagnostic (command.ts line 346 is not gated on
`jsonMode`), refuting the claim that no incremental diagnostic text is emitted
on any path. -/
theorem c8_counterexample :
    cfgJsonTimeout.jsonMode = true ∧
    Output.diag "timed out" ∈ (runSession cfgJsonTimeout "sleep five" evsTimeoutRun).2 := by
  exact ⟨rfl, by decide⟩

/-- C8 (amended): in `jsonMode` the command-analysis and failure-analysis
displays emit nothing and, once the machine reaches a terminal state, the
session output carries exactly one JSON summary line (emitted at the end);
however, path-specific diagnostics such as `"timed out"` are still printed
(see the counterexample). -/
theorem c8_json_suppression_amended (cfg : Config) (a : CommandAnalysis)
    (fa : FailureAnalysis) (q : String) (evs : List Event) (hjson : cfg.jsonMode = true) :
    displayCommandAnalysis cfg a = [] ∧
    displayFailureAnalysis cfg fa = [] ∧
    (isTerminal (runSession cfg q evs).1 = true →
      summaryCount (runSession cfg q evs).2 = 1) := by
  refine ⟨by simp [displayCommandAnalysis, hjson], by simp [displayFailureAnalysis, hjson], ?_⟩
  intro hterm
  have hjm : (runSteps cfg (initContext cfg q) evs).1.jsonMode = true := by
    rw [runSteps_jsonMode]
    simp [initContext, hjson]
  have hterm2 : isTerminal (runSteps cfg (initContext cfg q) evs).1 = true := hterm
  simp [runSession, hjm, hterm2, runSteps_summaryCount, Output.isSummary]

/-- C8 amended witness: the timeout session in jsonMode emits exactly one
summary line. -/
theorem c8_amended_witness :
    cfgJsonTimeout.jsonMode = true ∧
    summaryCount (runSession cfgJsonTimeout "sleep five" evsTimeoutRun).2 = 1 :=
  ⟨rfl,
   (c8_json_suppression_amended cfgJsonTimeout sampleOk sampleNoAlt "sleep five"
     evsTimeoutRun rfl).2.2 (by decide)⟩

/-- C1 counterexample: one failed execution followed by a failure-analysis
oracle call that itself rejects — the session aborts with
`"failure-analysis-error"`, `attemptCount = 1`, but `failures` is empty, so
the attempt is not matched by any failure entry. -/
theorem c1_counterexample :
    (runSession cfgAuto "boom" evsOracleCrash).1.state = CommandState.aborted ∧
    (runSession cfgAuto "boom" evsOracleCrash).1.abortedReason =
      some "failure-analysis-error" ∧
    (runSession cfgAuto "boom" evsOracleCrash).1.attemptCount = 1 ∧
    (runSession cfgAuto "boom" evsOracleCrash).1.failures = [] := by
  exact ⟨by decide, by decide, by decide, by decide⟩

/-- C1 (amended): at every terminal state, `attemptCount` equals the number of
recorded `failures` entries — each completed non-zero-exit execution (sudo-auth
failures and timeouts included) adds exactly one entry and one attempt, and
dangerous-command rejections add neither — except on the
`"failure-analysis-error"` abort, where the last failed execution is counted
but never recorded, leaving `attemptCount = failures.length + 1`. -/
theorem c1_attempts_match_recorded_failures (cfg : Config) (q : String) (evs : List Event)
    (hterm : isTerminal (runSession cfg q evs).1 = true) :
    (runSession cfg q evs).1.attemptCount = (runSession cfg q evs).1.failures.length ∨
    ((runSession cfg q evs).1.abortedReason = some "failure-analysis-error" ∧
      (runSession cfg q evs).1.attemptCount =
        (runSession cfg q evs).1.failures.length + 1) := by
  have hinv : Inv (runSession cfg q evs).1 := by
    rw [runSession_fst]
    exact Inv_runSteps cfg _ evs (Inv_initContext cfg q)
  cases hst : (runSession cfg q evs).1.state with
  | analyzing => simp [isTerminal, hst] at hterm
  | confirming => simp [isTerminal, hst] at hterm
  | executing => simp [isTerminal, hst] at hterm
  | failed => simp [isTerminal, hst] at hterm
  | success => exact Or.inl (hinv.2.2.1 (Or.inr (Or.inr (Or.inr hst))))
  | aborted => exact hinv.2.2.2 hst

/-- C1 amended witness: the counterexample session is terminal and lands in
the failure-analysis-error disjunct. -/
theorem c1_amended_witness :
    isTerminal (runSession cfgAuto "boom" evsOracleCrash).1 = true ∧
    ((runSession cfgAuto "boom" evsOracleCrash).1.attemptCount =
        (runSession cfgAuto "boom" evsOracleCrash).1.failures.length ∨
      ((runSession cfgAuto "boom" evsOracleCrash).1.abortedReason =
          some "failure-analysis-error" ∧
        (runSession cfgAuto "boom" evsOracleCrash).1.attemptCount =
          (runSession cfgAuto "boom" evsOracleCrash).1.failures.length + 1)) :=
  ⟨by decide, c1_attempts_match_recorded_failures cfgAuto "boom" evsOracleCrash (by decide)⟩

/-- C4: with the default ceiling (`maxTries = 3`), a sudo-requiring command
whose three executions all fail with an authentication-failure stderr is
retried twice going directly back to `EXECUTING` (with `isSudoRetry` set,
bypassing the Confirmation Gate), and on the third such failure the session
aborts with `"sudo-auth-failed"` and `attempts = 3`. -/
theorem c4_sudo_auth_three_failures (tm : Option Nat) (vb jm rep : Bool)
    (cmd expl q so se : String) (pkgs : List String)
    (hse : isSudoAuthFailure se = true)
    (s1 s2 s3 : Except String (Option FailureAnalysis))
    (p1 p2 p3 : Except String String) (u1 u2 u3 : String) :
    (runSession (cfgC4 tm vb jm) q
        (evsC4 cmd expl rep pkgs so se s1 s2 s3 p1 p2 p3 u1 u2 u3)).1.state =
      CommandState.aborted ∧
    (runSession (cfgC4 tm vb jm) q
        (evsC4 cmd expl rep pkgs so se s1 s2 s3 p1 p2 p3 u1 u2 u3)).1.abortedReason =
      some "sudo-auth-failed" ∧
    (runSession (cfgC4 tm vb jm) q
        (evsC4 cmd expl rep pkgs so se s1 s2 s3 p1 p2 p3 u1 u2 u3)).1.attemptCount = 3 ∧
    (runSession (cfgC4 tm vb jm) q
        (evsC4 cmd expl rep pkgs so se s1 s2 s3 p1 p2 p3 u1 u2 u3)).1.sudoAttempts = 3 ∧
    (runSteps (cfgC4 tm vb jm) (initContext (cfgC4 tm vb jm) q)
        (List.take 4 (evsC4 cmd expl rep pkgs so se s1 s2 s3 p1 p2 p3 u1 u2 u3))).1.state =
      CommandState.executing ∧
    (runSteps (cfgC4 tm vb jm) (initContext (cfgC4 tm vb jm) q)
        (List.take 4 (evsC4 cmd expl rep pkgs so se s1 s2 s3 p1 p2 p3 u1 u2 u3))).1.isSudoRetry =
      true ∧
    (runSteps (cfgC4 tm vb jm) (initContext (cfgC4 tm vb jm) q)
        (List.take 6 (evsC4 cmd expl rep pkgs so se s1 s2 s3 p1 p2 p3 u1 u2 u3))).1.state =
      CommandState.executing := by
  have hy : promptUser "y" = UserActionResult.approve := by decide
  have h0 : initContext (cfgC4 tm vb jm) q =
      ⟨.analyzing, q, q, [], none, none, false, 0, 0, 3, [], false, jm, none⟩ := rfl
  have g1 : (stepE (cfgC4 tm vb jm)
        (⟨.analyzing, q, q, [], none, none, false, 0, 0, 3, [], false, jm, none⟩ :
          CommandContext)
        (.analyzed (.ok (some (anaC4 cmd expl rep pkgs))))).1 =
      ⟨.confirming, q, q, [], some (anaC4 cmd expl rep pkgs), none, false, 0, 0, 3, [],
        false, jm, none⟩ := by
    simp [stepE, isTerminal, handleAnalyzing, analyzeCommand, anaC4]
  have g2 : (stepE (cfgC4 tm vb jm)
        (⟨.confirming, q, q, [], some (anaC4 cmd expl rep pkgs), none, false, 0, 0, 3, [],
          false, jm, none⟩ : CommandContext)
        (.userInput "y")).1 =
      ⟨.executing, q, q, [], some (anaC4 cmd expl rep pkgs), none, false, 0, 0, 3, [],
        false, jm, none⟩ := by
    simp [stepE, isTerminal, handleConfirming, hy]
  have g3 : (stepE (cfgC4 tm vb jm)
        (⟨.executing, q, q, [], some (anaC4 cmd expl rep pkgs), none, false, 0, 0, 3, [],
          false, jm, none⟩ : CommandContext)
        (.executed (.closed (some 1) so se))).1 =
      ⟨.failed, q, q, [], some (anaC4 cmd expl rep pkgs), some ⟨cmd, 1, so, se⟩, false, 0,
        1, 3, [], false, jm, none⟩ := by
    simp [stepE, isTerminal, outcomePossible, handleExecuting, applyExecResult,
      executeCommandResult, jsExitCode, anaC4, cfgC4]
  have g4 : (stepE (cfgC4 tm vb jm)
        (⟨.failed, q, q, [], some (anaC4 cmd expl rep pkgs), some ⟨cmd, 1, so, se⟩, false,
          0, 1, 3, [], false, jm, none⟩ : CommandContext)
        (.failureOracle s1 p1 u1)).1 =
      ⟨.executing, q, q, [], some (anaC4 cmd expl rep pkgs), some ⟨cmd, 1, so, se⟩, true,
        1, 1, 3, [sudoFailureRecord ⟨cmd, 1, so, se⟩], false, jm, none⟩ := by
    simp [stepE, isTerminal, handleFailed, hse, jsOrElse, jsTruthy]
  have g5 : (stepE (cfgC4 tm vb jm)
        (⟨.executing, q, q, [], some (anaC4 cmd expl rep pkgs), some ⟨cmd, 1, so, se⟩,
          true, 1, 1, 3, [sudoFailureRecord ⟨cmd, 1, so, se⟩], false, jm, none⟩ :
          CommandContext)
        (.executed (.closed (some 1) so se))).1 =
      ⟨.failed, q, q, [], some (anaC4 cmd expl rep pkgs), some ⟨cmd, 1, so, se⟩, false, 1,
        2, 3, [sudoFailureRecord ⟨cmd, 1, so, se⟩], false, jm, none⟩ := by
    simp [stepE, isTerminal, outcomePossible, handleExecuting, applyExecResult,
      executeCommandResult, jsExitCode, anaC4, cfgC4]
  have g6 : (stepE (cfgC4 tm vb jm)
        (⟨.failed, q, q, [], some (anaC4 cmd expl rep pkgs), some ⟨cmd, 1, so, se⟩, false,
          1, 2, 3, [sudoFailureRecord ⟨cmd, 1, so, se⟩], false, jm, none⟩ :
          CommandContext)
        (.failureOracle s2 p2 u2)).1 =
      ⟨.executing, q, q, [], some (anaC4 cmd expl rep pkgs), some ⟨cmd, 1, so, se⟩, true,
        2, 2, 3, [sudoFailureRecord ⟨cmd, 1, so, se⟩, sudoFailureRecord ⟨cmd, 1, so, se⟩],
        false, jm, none⟩ := by
    simp [stepE, isTerminal, handleFailed, hse, jsOrElse, jsTruthy]
  have g7 : (stepE (cfgC4 tm vb jm)
        (⟨.executing, q, q, [], some (anaC4 cmd expl rep pkgs), some ⟨cmd, 1, so, se⟩,
          true, 2, 2, 3, [sudoFailureRecord ⟨cmd, 1, so, se⟩,
            sudoFailureRecord ⟨cmd, 1, so, se⟩], false, jm, none⟩ : CommandContext)
        (.executed (.closed (some 1) so se))).1 =
      ⟨.failed, q, q, [], some (anaC4 cmd expl rep pkgs), some ⟨cmd, 1, so, se⟩, false, 2,
        3, 3, [sudoFailureRecord ⟨cmd, 1, so, se⟩, sudoFailureRecord ⟨cmd, 1, so, se⟩],
        false, jm, none⟩ := by
    simp [stepE, isTerminal, outcomePossible, handleExecuting, applyExecResult,
      executeCommandResult, jsExitCode, anaC4, cfgC4]
  have g8 : (stepE (cfgC4 tm vb jm)
        (⟨.failed, q, q, [], some (anaC4 cmd expl rep pkgs), some ⟨cmd, 1, so, se⟩, false,
          2, 3, 3, [sudoFailureRecord ⟨cmd, 1, so, se⟩, sudoFailureRecord ⟨cmd, 1, so, se⟩],
          false, jm, none⟩ : CommandContext)
        (.failureOracle s3 p3 u3)).1 =
      ⟨.aborted, q, q, [], some (anaC4 cmd expl rep pkgs), some ⟨cmd, 1, so, se⟩, false, 3,
        3, 3, [sudoFailureRecord ⟨cmd, 1, so, se⟩, sudoFailureRecord ⟨cmd, 1, so, se⟩,
          sudoFailureRecord ⟨cmd, 1, so, se⟩], false, jm, some "sudo-auth-failed"⟩ := by
    simp [stepE, isTerminal, handleFailed, hse, jsOrElse, jsTruthy]
  refine ⟨?_, ?_, ?_, ?_, ?_, ?_, ?_⟩ <;>
    simp only [runSession_fst, runSteps_fst, evsC4, List.take, List.foldl_cons,
      List.foldl_nil, h0, g1, g2, g3, g4, g5, g6, g7, g8]

/-- C4 witness: a concrete sudo session with three wrong passwords. -/
theorem c4_witness :
    isSudoAuthFailure "Sorry, try again." = true ∧
    (runSession (cfgC4 none false false) "list root with sudo"
        (evsC4 "sudo ls /root" "lists root" false [] "" "Sorry, try again."
          (.ok none) (.ok none) (.ok none) (.ok "x") (.ok "x") (.ok "x")
          "" "" "")).1.abortedReason = some "sudo-auth-failed" :=
  ⟨by decide,
   (c4_sudo_auth_three_failures none false false false "sudo ls /root" "lists root"
     "list root with sudo" "" "Sorry, try again." [] (by decide)
     (.ok none) (.ok none) (.ok none) (.ok "x") (.ok "x") (.ok "x") "" "" "").2.1⟩

end Aish
